import Mathlib

/-!
Shallow embedding of the phishing-URL analyzer in `src/SingleFileApp.tsx`
of the Cyber-Sentinel repository.

The analyzer is glue code over an external generative-AI service: it builds
a prompt embedding the user URL, dispatches it, trims and JSON-parses the
returned text, and maps the parsed object to UI state.  The embedding models
the two host-environment boundaries as explicit parameters:

* `remote : String → RemoteOutcome` maps the prompt sent to
  `ai.models.generateContent` to its observed outcome — either the awaited
  call throws (network error, timeout, service error) or it resolves with a
  response whose `.text` is a string;
* `parse : String → Option Json` is the host `JSON.parse`: `none` when it
  throws on the given text, `some j` when it yields the JSON value `j`.

Everything else (`analyzeUrlForPhishing`, the `handleAnalysis` state update,
the render-time derivations) is translated directly from the source.
-/

/-- JSON values as produced by a JavaScript JSON.parse call.  Numbers are
modelled as integers; no field of the analyzer schema is numeric and no claim
involves numeric values. -/
inductive Json where
  | null
  | bool (b : Bool)
  | num (n : Int)
  | str (s : String)
  | arr (elems : List Json)
  | obj (fields : List (String × Json))

/-- The `PhishingAnalysisResult` interface of `src/SingleFileApp.tsx`
(lines 6-11).  The TypeScript union type of `confidence` is modelled as a
string together with the predicate `r.confidence ∈ confidenceValues`. -/
structure PhishingAnalysisResult where
  isPhishing : Bool
  confidence : String
  explanation : String
  indicators : List String

/-- The four values of the `confidence` union type, in the order they are
listed in the response schema enum (line 22). -/
def confidenceValues : List String := ["High", "Medium", "Low", "None"]

/-- The JSON object a response body takes when it matches the declared
response schema: all four required fields present, with the declared types. -/
def PhishingAnalysisResult.toJson (r : PhishingAnalysisResult) : Json :=
  Json.obj [("isPhishing", Json.bool r.isPhishing),
            ("confidence", Json.str r.confidence),
            ("explanation", Json.str r.explanation),
            ("indicators", Json.arr (r.indicators.map Json.str))]

/-- Field access on a JSON value: the value stored under `key` when the value
is an object with such a field, `none` otherwise. -/
def Json.getField : Json → String → Option Json
  | Json.obj fields, key => fields.lookup key
  | _, _ => none

/-- Observed outcome of the awaited `ai.models.generateContent` call:
either the promise rejects (service unreachable, remote error, timeout) or
it resolves and `response.text` is the given string. -/
inductive RemoteOutcome where
  | throws
  | returns (text : String)

/-- The error message thrown by the catch-all handler of
`analyzeUrlForPhishing` (line 64). -/
def genericErrorMessage : String :=
  "Failed to analyze the URL. The AI service may be unavailable or the URL may be invalid."

/-- The prompt template literal of `analyzeUrlForPhishing` (lines 42-46),
with the user URL interpolated. -/
def buildPrompt (url : String) : String :=
  "\n        Analyze the following URL for potential phishing threats. Evaluate its structure, domain, and any other suspicious characteristics. Provide a structured analysis based on the provided JSON schema. Do not just repeat the prompt, provide the analysis directly.\n\n        URL to analyze: \"" ++ url ++ "\"\n      "

/-- `analyzeUrlForPhishing` (lines 40-66): send the prompt, trim the response
text, JSON-parse it, and return the parsed value; any failure inside the
`try` block (rejected remote call or a `JSON.parse` throw) is caught and
re-thrown as `genericErrorMessage`.  The parsed value is returned without any
shape validation. -/
def analyzeUrlForPhishing (parse : String → Option Json)
    (remote : String → RemoteOutcome) (url : String) : Except String Json :=
  match remote (buildPrompt url) with
  | RemoteOutcome.throws => Except.error genericErrorMessage
  | RemoteOutcome.returns text =>
    match parse text.trim with
    | none => Except.error genericErrorMessage
    | some j => Except.ok j

/-- The component state of `App` (lines 97-100): the four `useState` cells. -/
structure AppState where
  url : String
  isLoading : Bool
  result : Option Json
  error : Option String

/-- The local validation message set on empty input (line 104). -/
def validationMessage : String := "Please enter a URL to analyze."

/-- The error text stored by the catch branch (line 114):
`err.message || 'An unknown error occurred.'`. -/
def displayedError (m : String) : String :=
  if m = "" then "An unknown error occurred." else m

/-- Result of one invocation of `handleAnalysis`: whether a remote call was
issued, the state visible while that call was in flight (when one was made),
and the state after the handler finished. -/
structure RunOutcome where
  remoteCalled : Bool
  inFlight : Option AppState
  final : AppState

/-- `handleAnalysis` (lines 102-118).  An empty `url` (the only falsy string)
sets the validation message and returns before any remote work.  Otherwise
the handler sets loading, clears error and result, awaits
`analyzeUrlForPhishing`, stores the result on success or the displayed error
message on failure, and finally clears the loading flag. -/
def handleAnalysis (parse : String → Option Json)
    (remote : String → RemoteOutcome) (s : AppState) : RunOutcome :=
  if s.url = "" then
    { remoteCalled := false, inFlight := none,
      final := { s with error := some validationMessage } }
  else
    let loading : AppState := { s with isLoading := true, error := none, result := none }
    match analyzeUrlForPhishing parse remote s.url with
    | Except.ok j =>
      { remoteCalled := true, inFlight := some loading,
        final := { loading with result := some j, isLoading := false } }
    | Except.error m =>
      { remoteCalled := true, inFlight := some loading,
        final := { loading with error := some (displayedError m), isLoading := false } }

/-- Text of the `StatusPill` (line 74). -/
def statusPillText (r : PhishingAnalysisResult) : String :=
  if r.isPhishing then "Phishing Detected" else "URL Appears Safe"

/-- Text color class of the `StatusPill` (line 73). -/
def statusPillTextColor (r : PhishingAnalysisResult) : String :=
  if r.isPhishing then "text-sentinel-red" else "text-sentinel-green"

/-- Background color class of the `StatusPill` (line 72). -/
def statusPillBgColor (r : PhishingAnalysisResult) : String :=
  if r.isPhishing then "bg-red-500/20" else "bg-green-500/20"

/-- Threat-level text rendered in the result grid (line 162). -/
def threatLevelText (r : PhishingAnalysisResult) : String :=
  if r.isPhishing then "Dangerous" else "Safe"

/-- Threat-level color class (line 162). -/
def threatLevelColor (r : PhishingAnalysisResult) : String :=
  if r.isPhishing then "text-sentinel-red" else "text-sentinel-green"

/-- Confidence text rendered in the result grid (line 166): the field value,
unchanged. -/
def confidenceDisplay (r : PhishingAnalysisResult) : String := r.confidence

/-- The keyword alternatives of the icon-coloring regex (line 183). -/
def positiveKeywords : List String := ["HTTPS", "legitimate", "secure", "trusted", "valid"]

/-- Characters of a string, lowercased.  All regex keywords are ASCII, so
ASCII lowercasing models the `i` regex flag. -/
def lowerChars (s : String) : List Char := s.toList.map Char.toLower

/-- Case-insensitive substring test: `pat` occurs inside `s` when both are
lowercased. -/
def containsCI (s pat : String) : Bool :=
  decide (lowerChars pat <:+: lowerChars s)

/-- The regex test of line 183:
`/(HTTPS|legitimate|secure|trusted|valid)/i.test(indicator)`. -/
def isSafeIndicator (indicator : String) : Bool :=
  positiveKeywords.any (fun kw => containsCI indicator kw)

/-- Color class of an `IndicatorIcon` given its `isPositive` prop (line 84). -/
def indicatorIconColor (isPositive : Bool) : String :=
  if isPositive then "text-sentinel-green" else "text-sentinel-red"

/-- Icon color class of the rendered row for one indicator string
(lines 182-189): the classifier feeds the icon color. -/
def indicatorRowIconColor (indicator : String) : String :=
  indicatorIconColor (isSafeIndicator indicator)

/-- JavaScript truthiness of a JSON value: `null`, `false`, `0` and the empty
string are falsy; every other value, including empty arrays and objects, is
truthy. -/
def jsTruthy : Json → Bool
  | Json.null => false
  | Json.bool b => b
  | Json.num n => n != 0
  | Json.str s => s != ""
  | Json.arr _ => true
  | Json.obj _ => true

/-- Whether the result panel is rendered (line 152): truthiness of `result`,
which requires it to be non-null and, because the parsed value is stored
unvalidated, also a truthy JSON value. -/
def resultRendered (s : AppState) : Bool :=
  match s.result with
  | some j => jsTruthy j
  | none => false

/-- Whether the error banner is rendered (line 150): truthiness of `error`,
which for a string requires it to be non-null and non-empty. -/
def errorRendered (s : AppState) : Bool :=
  match s.error with
  | some m => m != ""
  | none => false

/-- The URL input is disabled exactly while loading (line 131). -/
def urlInputDisabled (s : AppState) : Bool := s.isLoading

/-- The scan button is disabled exactly while loading (line 135). -/
def scanButtonDisabled (s : AppState) : Bool := s.isLoading

/-- Spec-side reading of "contains the case-insensitive substring", stated as
a proposition for comparison with the code-side classifier. -/
def containsCaseInsensitiveSpec (s pat : String) : Prop :=
  lowerChars pat <:+: lowerChars s

/-- C1: whenever the URL state is the empty string, `handleAnalysis` issues
no remote call and sets the user-facing validation message
"Please enter a URL to analyze.". -/
theorem empty_url_no_remote_call_sets_validation
    (parse : String → Option Json) (remote : String → RemoteOutcome) (s : AppState)
    (h : s.url = "") :
    (handleAnalysis parse remote s).remoteCalled = false ∧
    (handleAnalysis parse remote s).final.error = some "Please enter a URL to analyze." := by
  simp [handleAnalysis, h, validationMessage]

theorem empty_url_no_remote_call_sets_validation_witness :
    (handleAnalysis (fun _ => none) (fun _ => RemoteOutcome.throws)
        ⟨"", false, none, none⟩).remoteCalled = false ∧
    (handleAnalysis (fun _ => none) (fun _ => RemoteOutcome.throws)
        ⟨"", false, none, none⟩).final.error = some "Please enter a URL to analyze." :=
  empty_url_no_remote_call_sets_validation _ _ _ rfl

/-- C2: every failing remote invocation — the awaited call throws (covering
network errors, timeouts and service errors) or the returned text does not
parse as JSON — leaves `handleAnalysis` with the one generic error message
shown and the result state `none`, so no result is rendered and no partial
result is kept. -/
theorem remote_failure_shows_generic_error
    (parse : String → Option Json) (remote : String → RemoteOutcome) (s : AppState)
    (hne : s.url ≠ "")
    (hfail : remote (buildPrompt s.url) = RemoteOutcome.throws ∨
      ∃ text, remote (buildPrompt s.url) = RemoteOutcome.returns text ∧
        parse text.trim = none) :
    (handleAnalysis parse remote s).final.error = some genericErrorMessage ∧
    (handleAnalysis parse remote s).final.result = none ∧
    errorRendered (handleAnalysis parse remote s).final = true ∧
    resultRendered (handleAnalysis parse remote s).final = false := by
  have herr : analyzeUrlForPhishing parse remote s.url = Except.error genericErrorMessage := by
    rcases hfail with h | ⟨text, hret, hparse⟩
    · simp [analyzeUrlForPhishing, h]
    · simp [analyzeUrlForPhishing, hret, hparse]
  have hdisp : displayedError genericErrorMessage = genericErrorMessage := by decide
  have hshow : (genericErrorMessage != "") = true := by decide
  simp [handleAnalysis, hne, herr, hdisp, errorRendered, resultRendered, hshow]

theorem remote_failure_shows_generic_error_witness :
    (handleAnalysis (fun _ => none) (fun _ => RemoteOutcome.throws)
        ⟨"https://example.com", false, none, none⟩).final.error = some genericErrorMessage ∧
    (handleAnalysis (fun _ => none) (fun _ => RemoteOutcome.throws)
        ⟨"https://example.com", false, none, none⟩).final.result = none ∧
    errorRendered (handleAnalysis (fun _ => none) (fun _ => RemoteOutcome.throws)
        ⟨"https://example.com", false, none, none⟩).final = true ∧
    resultRendered (handleAnalysis (fun _ => none) (fun _ => RemoteOutcome.throws)
        ⟨"https://example.com", false, none, none⟩).final = false :=
  remote_failure_shows_generic_error _ _ _ (by decide) (Or.inl rfl)

/-- C3: a successful remote response whose body is well-formed JSON matching
the declared schema (boolean `isPhishing`, enumerated `confidence`, string
`explanation`, string-array `indicators`) is returned by
`analyzeUrlForPhishing` as a success whose value carries all four fields with
exactly the response body values, untransformed. -/
theorem wellformed_response_exactly_mirrored
    (parse : String → Option Json) (remote : String → RemoteOutcome)
    (url text : String) (r : PhishingAnalysisResult)
    (_hconf : r.confidence ∈ confidenceValues)
    (hret : remote (buildPrompt url) = RemoteOutcome.returns text)
    (hparse : parse text.trim = some r.toJson) :
    analyzeUrlForPhishing parse remote url = Except.ok r.toJson ∧
    r.toJson.getField "isPhishing" = some (Json.bool r.isPhishing) ∧
    r.toJson.getField "confidence" = some (Json.str r.confidence) ∧
    r.toJson.getField "explanation" = some (Json.str r.explanation) ∧
    r.toJson.getField "indicators" = some (Json.arr (r.indicators.map Json.str)) := by
  refine ⟨by simp [analyzeUrlForPhishing, hret, hparse], rfl, ?_, ?_, ?_⟩ <;>
    simp [PhishingAnalysisResult.toJson, Json.getField, List.lookup]

theorem wellformed_response_exactly_mirrored_witness :
    ((⟨true, "High", "Imitates a brand.", ["Suspicious subdomain"]⟩ :
        PhishingAnalysisResult).confidence ∈ confidenceValues) ∧
    analyzeUrlForPhishing
        (fun _ => some (PhishingAnalysisResult.toJson
          ⟨true, "High", "Imitates a brand.", ["Suspicious subdomain"]⟩))
        (fun _ => RemoteOutcome.returns "{}") "http://paypa1-secure-login.com" =
      Except.ok (PhishingAnalysisResult.toJson
        ⟨true, "High", "Imitates a brand.", ["Suspicious subdomain"]⟩) :=
  ⟨by decide,
   (wellformed_response_exactly_mirrored _ _ "http://paypa1-secure-login.com" "{}"
      ⟨true, "High", "Imitates a brand.", ["Suspicious subdomain"]⟩
      (by decide) rfl rfl).1⟩

/-- C4: the icon-coloring classifier marks an indicator string positive
exactly when it contains one of the case-insensitive substrings "HTTPS",
"legitimate", "secure", "trusted", "valid"; every other string is classified
negative. -/
theorem indicator_classification_iff (s : String) :
    isSafeIndicator s = true ↔
      (containsCaseInsensitiveSpec s "HTTPS" ∨ containsCaseInsensitiveSpec s "legitimate" ∨
       containsCaseInsensitiveSpec s "secure" ∨ containsCaseInsensitiveSpec s "trusted" ∨
       containsCaseInsensitiveSpec s "valid") := by
  simp [isSafeIndicator, positiveKeywords, containsCI, containsCaseInsensitiveSpec]

/-- C5 counterexample: the second example indicator "Uses HTTP not HTTPS"
contains the substring "HTTPS", so the classifier marks it positive and its
row icon is green, not red as the claim states. -/
theorem example_second_indicator_icon_green :
    isSafeIndicator "Uses HTTP not HTTPS" = true ∧
    indicatorRowIconColor "Uses HTTP not HTTPS" = "text-sentinel-green" ∧
    indicatorRowIconColor "Uses HTTP not HTTPS" ≠ "text-sentinel-red" := by decide

/-- The example analysis result of the spec: phishing, high confidence, two
indicator strings. -/
def exampleResult : PhishingAnalysisResult :=
  { isPhishing := true, confidence := "High",
    explanation := "The domain imitates a known brand and does not use HTTPS.",
    indicators := ["Suspicious subdomain", "Uses HTTP not HTTPS"] }

/-- C5 amended: for the example result the UI shows the red
"Phishing Detected" pill, "Dangerous" threat level and confidence "High";
the first indicator row gets a red (negative) icon, but the second row gets
a green (positive) icon because "Uses HTTP not HTTPS" contains the keyword
"HTTPS". -/
theorem example_result_ui_rendering :
    statusPillText exampleResult = "Phishing Detected" ∧
    statusPillTextColor exampleResult = "text-sentinel-red" ∧
    statusPillBgColor exampleResult = "bg-red-500/20" ∧
    threatLevelText exampleResult = "Dangerous" ∧
    threatLevelColor exampleResult = "text-sentinel-red" ∧
    confidenceDisplay exampleResult = "High" ∧
    exampleResult.indicators.map indicatorRowIconColor =
      ["text-sentinel-red", "text-sentinel-green"] := by decide

/-- Every error that `analyzeUrlForPhishing` surfaces carries the one generic
message of its catch-all handler. -/
theorem analyze_error_is_generic (parse : String → Option Json)
    (remote : String → RemoteOutcome) (url : String) (m : String)
    (h : analyzeUrlForPhishing parse remote url = Except.error m) :
    m = genericErrorMessage := by
  unfold analyzeUrlForPhishing at h
  cases hr : remote (buildPrompt url) with
  | throws => simp [hr] at h; exact h.symm
  | returns text =>
    simp only [hr] at h
    cases hp : parse text.trim with
    | none => simp [hp] at h; exact h.symm
    | some j => simp [hp] at h

/-- C6: every run of `handleAnalysis` that passes the empty-URL check shows
an in-flight state with the loading flag set — which disables both the URL
input and the scan button — and ends with the loading flag cleared and both
controls re-enabled, whether the remote call succeeds or fails. -/
theorem loading_flag_in_flight_and_cleared
    (parse : String → Option Json) (remote : String → RemoteOutcome) (s : AppState)
    (hne : s.url ≠ "") :
    (∃ st, (handleAnalysis parse remote s).inFlight = some st ∧
      st.isLoading = true ∧ urlInputDisabled st = true ∧ scanButtonDisabled st = true) ∧
    (handleAnalysis parse remote s).final.isLoading = false ∧
    urlInputDisabled (handleAnalysis parse remote s).final = false ∧
    scanButtonDisabled (handleAnalysis parse remote s).final = false := by
  refine ⟨⟨{ s with isLoading := true, error := none, result := none }, ?_, rfl, rfl, rfl⟩,
      ?_, ?_, ?_⟩ <;>
    cases h : analyzeUrlForPhishing parse remote s.url <;>
      simp [handleAnalysis, hne, h, urlInputDisabled, scanButtonDisabled]

theorem loading_flag_in_flight_and_cleared_witness :
    (∃ st, (handleAnalysis (fun _ => none) (fun _ => RemoteOutcome.throws)
        ⟨"https://example.com", false, none, none⟩).inFlight = some st ∧
      st.isLoading = true ∧ urlInputDisabled st = true ∧ scanButtonDisabled st = true) ∧
    (handleAnalysis (fun _ => none) (fun _ => RemoteOutcome.throws)
        ⟨"https://example.com", false, none, none⟩).final.isLoading = false ∧
    urlInputDisabled (handleAnalysis (fun _ => none) (fun _ => RemoteOutcome.throws)
        ⟨"https://example.com", false, none, none⟩).final = false ∧
    scanButtonDisabled (handleAnalysis (fun _ => none) (fun _ => RemoteOutcome.throws)
        ⟨"https://example.com", false, none, none⟩).final = false :=
  loading_flag_in_flight_and_cleared _ _ _ (by decide)

/-- C7: every successful analysis stores the parsed value as the new result,
replacing any previously stored result, and leaves the error state `none`,
clearing any prior error including a prior validation message; the result
panel is then rendered exactly when the stored value is truthy. -/
theorem success_replaces_result_clears_error
    (parse : String → Option Json) (remote : String → RemoteOutcome)
    (s : AppState) (j : Json)
    (hne : s.url ≠ "")
    (hok : analyzeUrlForPhishing parse remote s.url = Except.ok j) :
    (handleAnalysis parse remote s).final.result = some j ∧
    (handleAnalysis parse remote s).final.error = none ∧
    resultRendered (handleAnalysis parse remote s).final = jsTruthy j ∧
    errorRendered (handleAnalysis parse remote s).final = false := by
  simp [handleAnalysis, hne, hok, resultRendered, errorRendered]

theorem success_replaces_result_clears_error_witness :
    (handleAnalysis (fun _ => some (Json.bool true))
        (fun _ => RemoteOutcome.returns "true")
        ⟨"https://example.com", false, some Json.null, some validationMessage⟩).final.result =
      some (Json.bool true) ∧
    (handleAnalysis (fun _ => some (Json.bool true))
        (fun _ => RemoteOutcome.returns "true")
        ⟨"https://example.com", false, some Json.null, some validationMessage⟩).final.error =
      none ∧
    resultRendered (handleAnalysis (fun _ => some (Json.bool true))
        (fun _ => RemoteOutcome.returns "true")
        ⟨"https://example.com", false, some Json.null, some validationMessage⟩).final = true ∧
    errorRendered (handleAnalysis (fun _ => some (Json.bool true))
        (fun _ => RemoteOutcome.returns "true")
        ⟨"https://example.com", false, some Json.null, some validationMessage⟩).final = false :=
  success_replaces_result_clears_error _ _ _ (Json.bool true) (by decide) rfl

/-- C8: `analyzeUrlForPhishing` performs no shape validation of the parsed
response: whenever the remote call returns text, any JSON value the parser
yields for the trimmed text — null, a non-object, an object missing fields —
is returned as a success unchanged, and the parse-level failure is raised
exactly when the parser rejects the trimmed text. -/
theorem parse_output_returned_unvalidated
    (parse : String → Option Json) (remote : String → RemoteOutcome) (url text : String)
    (hret : remote (buildPrompt url) = RemoteOutcome.returns text) :
    (∀ j, parse text.trim = some j →
      analyzeUrlForPhishing parse remote url = Except.ok j) ∧
    (parse text.trim = none →
      analyzeUrlForPhishing parse remote url = Except.error genericErrorMessage) := by
  constructor
  · intro j hj
    simp [analyzeUrlForPhishing, hret, hj]
  · intro hn
    simp [analyzeUrlForPhishing, hret, hn]

theorem parse_output_returned_unvalidated_witness :
    analyzeUrlForPhishing (fun _ => some Json.null)
      (fun _ => RemoteOutcome.returns "null") "https://example.com" =
      Except.ok Json.null :=
  (parse_output_returned_unvalidated _ _ "https://example.com" "null" rfl).1 Json.null rfl

/-- C9: the local empty-input check rejects only the exactly-empty string:
for a URL made of whitespace characters only (and hence non-empty),
`handleAnalysis` issues the remote call and never shows the validation
message. -/
theorem whitespace_url_not_rejected
    (parse : String → Option Json) (remote : String → RemoteOutcome) (s : AppState)
    (_hws : ∀ c ∈ s.url.toList, c.isWhitespace)
    (hne : s.url ≠ "") :
    (handleAnalysis parse remote s).remoteCalled = true ∧
    (handleAnalysis parse remote s).final.error ≠ some validationMessage := by
  cases h : analyzeUrlForPhishing parse remote s.url with
  | ok j => simp [handleAnalysis, hne, h]
  | error m =>
    have hm : m = genericErrorMessage := analyze_error_is_generic _ _ _ _ h
    have hd : displayedError genericErrorMessage ≠ validationMessage := by decide
    simp [handleAnalysis, hne, h, hm]
    exact hd

theorem whitespace_url_not_rejected_witness :
    (∀ c ∈ (" " : String).toList, c.isWhitespace) ∧
    (handleAnalysis (fun _ => none) (fun _ => RemoteOutcome.throws)
        ⟨" ", false, none, none⟩).remoteCalled = true ∧
    (handleAnalysis (fun _ => none) (fun _ => RemoteOutcome.throws)
        ⟨" ", false, none, none⟩).final.error ≠ some validationMessage :=
  ⟨by decide, whitespace_url_not_rejected _ _ _ (by decide) (by decide)⟩

/-- C10: when the empty-URL validation fires, only the error cell changes:
the URL, loading flag and stored result keep their previous values, a
previously rendered result stays rendered alongside the message, no remote
call happens and no in-flight state exists. -/
theorem empty_url_frame_preserved
    (parse : String → Option Json) (remote : String → RemoteOutcome) (s : AppState)
    (h : s.url = "") :
    (handleAnalysis parse remote s).final.url = s.url ∧
    (handleAnalysis parse remote s).final.isLoading = s.isLoading ∧
    (handleAnalysis parse remote s).final.result = s.result ∧
    (handleAnalysis parse remote s).final.error = some validationMessage ∧
    resultRendered (handleAnalysis parse remote s).final = resultRendered s ∧
    errorRendered (handleAnalysis parse remote s).final = true ∧
    (handleAnalysis parse remote s).remoteCalled = false ∧
    (handleAnalysis parse remote s).inFlight = none := by
  have hshow : (validationMessage != "") = true := by decide
  simp [handleAnalysis, h, resultRendered, errorRendered, hshow]

theorem empty_url_frame_preserved_witness :
    (handleAnalysis (fun _ => none) (fun _ => RemoteOutcome.throws)
        ⟨"", false, some (Json.bool true), none⟩).final.result = some (Json.bool true) ∧
    resultRendered (handleAnalysis (fun _ => none) (fun _ => RemoteOutcome.throws)
        ⟨"", false, some (Json.bool true), none⟩).final = true ∧
    (handleAnalysis (fun _ => none) (fun _ => RemoteOutcome.throws)
        ⟨"", false, some (Json.bool true), none⟩).final.isLoading = false ∧
    (handleAnalysis (fun _ => none) (fun _ => RemoteOutcome.throws)
        ⟨"", false, some (Json.bool true), none⟩).final.error = some validationMessage :=
  ⟨(empty_url_frame_preserved (fun _ => none) (fun _ => RemoteOutcome.throws)
      ⟨"", false, some (Json.bool true), none⟩ rfl).2.2.1,
   by
    have hh := (empty_url_frame_preserved (fun _ => none) (fun _ => RemoteOutcome.throws)
      ⟨"", false, some (Json.bool true), none⟩ rfl).2.2.2.2.1
    simpa [resultRendered] using hh,
   (empty_url_frame_preserved (fun _ => none) (fun _ => RemoteOutcome.throws)
      ⟨"", false, some (Json.bool true), none⟩ rfl).2.1,
   (empty_url_frame_preserved (fun _ => none) (fun _ => RemoteOutcome.throws)
      ⟨"", false, some (Json.bool true), none⟩ rfl).2.2.2.1⟩
